import Mathlib

/-!
Verification of the `strong-fetch` wrappers (src/src/index.ts and src/index.js)
against their natural-language specification.

The five wrappers (`fetchWithTimeout`, `fetchWithRetry`, `fetchWithAuth`,
`fetchByProxy`, `fixedRefresh`) are shallowly embedded below.  The underlying
transport, the timer capability and the proxy-agent constructor are external
collaborators; they are modelled by oracles (a `TransportBehavior` value, an
explicit timer ledger, an agent constructor).  JavaScript's single-threaded
run-to-completion scheduling is embedded by letting each caller execute the
synchronous segment between two await points as one atomic step on the shared
closure state, with promise resolutions delivered in registration order.
-/

namespace StrongFetch

/-- JavaScript runtime values, as far as the wrappers inspect them: the code
uses truthiness tests (`!res`, `init?.timeout || 5000`), so the embedding keeps
the value classes whose truthiness differs. -/
inductive JSValue where
  | vNum : Int → JSValue
  | vStr : String → JSValue
  | vBool : Bool → JSValue
  | vObj : Nat → JSValue
  | vUndefined : JSValue
  | vNull : JSValue
deriving DecidableEq, Repr

/-- JavaScript truthiness for the embedded value classes (`0`, `""`, `false`,
`undefined`, `null` are falsy; objects are truthy). -/
def truthy : JSValue → Bool
  | .vNum n => n != 0
  | .vStr s => s != ""
  | .vBool b => b
  | .vObj _ => true
  | .vUndefined => false
  | .vNull => false

/-- JavaScript `a || b`: returns `a` when `a` is truthy, else `b`.  Used by
`init?.timeout || 5000` at src/src/index.ts:15. -/
def jsOr (a b : JSValue) : JSValue := if truthy a then a else b

/-- Errors a promise can reject with, as far as the wrappers inspect them:
`node-fetch` rejects an aborted request with an `AbortError`; everything else
the code sees is a generic `Error` carrying a message
(src/src/index.ts:22-25). -/
inductive JsError where
  | abortError : JsError
  | errorMsg : String → JsError
deriving DecidableEq, Repr

/-- A transport response; the wrappers only inspect the numeric status
(src/src/index.ts:80) so the rest of the response is an opaque payload. -/
structure Response where
  status : Nat
  payload : Nat
deriving DecidableEq, Repr

/-- Behaviour of one underlying `fetch` attempt relative to the deadline of the
wrapping `fetchWithTimeout` call: it settles (with a value or an error) before
the cancellation timer fires, or it is still unsettled when the timer fires. -/
inductive TransportBehavior where
  | settles : Except JsError Response → TransportBehavior
  | hangs : TransportBehavior
deriving Repr

/-! ## TimeoutGuard: `fetchWithTimeout` (src/src/index.ts:11-29) -/

/-- The options object of `fetchWithTimeout`, reduced to the fields the
wrapper itself reads; `timeout` keeps its JavaScript value so that the falsy
test of `init?.timeout || 5000` is preserved.  An absent options object is
`none`; an options object without a `timeout` field has `timeout = vUndefined`. -/
structure InitOptions where
  timeout : JSValue := .vUndefined
deriving DecidableEq, Repr

/-- `init?.timeout`: optional chaining yields `undefined` when `init` is
absent. -/
def initTimeoutField : Option InitOptions → JSValue
  | none => .vUndefined
  | some i => i.timeout

/-- The delay handed to `setTimeout` at src/src/index.ts:13-15:
`init?.timeout || 5000`. -/
def effectiveDeadline (init : Option InitOptions) : JSValue :=
  jsOr (initTimeoutField init) (.vNum 5000)

/-- Outcome of `await fetch(url, newInit)` inside `fetchWithTimeout`: if the
transport has not settled when the timer fires, `controller.abort()` makes
`node-fetch` reject with an `AbortError`; otherwise the transport's own
settlement is observed (src/src/index.ts:19). -/
def rawFetchOutcome : TransportBehavior → Except JsError Response
  | .settles r => r
  | .hangs => .error .abortError

/-- The `catch` clause of `fetchWithTimeout` (src/src/index.ts:21-25): an
`AbortError` becomes `new Error("timeout")`; any other error is re-rejected
unchanged. -/
def catchClause : JsError → JsError
  | .abortError => .errorMsg "timeout"
  | .errorMsg m => .errorMsg m

/-- Settled result of a `fetchWithTimeout` call (src/src/index.ts:18-25):
the transport response on success, else the error mapped by the catch
clause. -/
def fetchWithTimeoutResult (b : TransportBehavior) : Except JsError Response :=
  match rawFetchOutcome b with
  | .ok r => .ok r
  | .error e => .error (catchClause e)

/-! ### Timer ledger, for the timer-leak claim (C7).

The timer capability is modelled as a ledger of pending timeout handles and
pending immediate handles.  `setTimeout` schedules a new timeout handle;
`clearTimeout` cancels a timeout handle; `clearImmediate` cancels an immediate
handle and, per the platform's timer capability, has no effect on timeout
handles.  src/src/index.ts:27 calls `clearTimeout(timeout)` in the `finally`
block, while src/index.js:28 calls `clearImmediate(timeout)` on the same
`setTimeout` handle. -/

/-- Ledger of pending timer handles. -/
structure TimerSystem where
  pendingTimeouts : List Nat
  pendingImmediates : List Nat
  nextId : Nat
deriving DecidableEq, Repr

/-- A timer system with nothing scheduled. -/
def TimerSystem.empty : TimerSystem := ⟨[], [], 0⟩

/-- `setTimeout(cb, d)`: schedules a fresh timeout handle. -/
def setTimeoutOp (ts : TimerSystem) : TimerSystem × Nat :=
  (⟨ts.pendingTimeouts ++ [ts.nextId], ts.pendingImmediates, ts.nextId + 1⟩, ts.nextId)

/-- `clearTimeout(h)`: cancels the timeout handle `h`. -/
def clearTimeoutOp (h : Nat) (ts : TimerSystem) : TimerSystem :=
  ⟨ts.pendingTimeouts.filter (· != h), ts.pendingImmediates, ts.nextId⟩

/-- `clearImmediate(h)`: cancels the immediate handle `h`; it is the cancel
operation of the immediate queue, not of the timeout queue, so pending
timeouts are untouched. -/
def clearImmediateOp (h : Nat) (ts : TimerSystem) : TimerSystem :=
  ⟨ts.pendingTimeouts, ts.pendingImmediates.filter (· != h), ts.nextId⟩

/-- `fetchWithTimeout` of src/src/index.ts: schedule the cancellation timer
(line 13), await the transport (lines 18-25), and in the `finally` block call
`clearTimeout` on the handle (line 27).  Returns the final timer ledger and
the settled result. -/
def fetchWithTimeoutTS (b : TransportBehavior) (ts : TimerSystem) :
    TimerSystem × Except JsError Response :=
  let (ts1, h) := setTimeoutOp ts
  let result := fetchWithTimeoutResult b
  (clearTimeoutOp h ts1, result)

/-- `fetchWithTimeout` of src/index.js: identical except that the `finally`
block calls `clearImmediate` on the `setTimeout` handle (src/index.js:28). -/
def fetchWithTimeoutJS (b : TransportBehavior) (ts : TimerSystem) :
    TimerSystem × Except JsError Response :=
  let (ts1, h) := setTimeoutOp ts
  let result := fetchWithTimeoutResult b
  (clearImmediateOp h ts1, result)

/-! ## RetryLoop: `fetchWithRetry` (src/src/index.ts:39-49)

The wrapped operation is an oracle `f : Nat → Except JsError Res` giving the
outcome of its k-th invocation.  The loop is unbounded, so the embedding takes
a fuel bound on the number of invocations observed; running out of fuel means
the call has not settled within that many attempts (`pending`), never that it
fails. -/

/-- How an asynchronous call has settled, if at all. -/
inductive AsyncOutcome (Res : Type) where
  | resolved : Res → AsyncOutcome Res
  | rejected : JsError → AsyncOutcome Res
  | pending : AsyncOutcome Res
deriving DecidableEq, Repr

/-- `fetchWithRetry fun interval` observed for `fuel` invocations, starting at
invocation index `k`.  Mirrors src/src/index.ts:39-49 line by line: try
`fun()`; on success resolve with the value; on failure log, wait
`interval` seconds, and recurse — the recursive call at line 47 is
`fetchWithRetry(fun)`, which omits the interval argument, so the recursion
uses the default interval `5`.  The second component records the sequence of
delays (in seconds) performed so far. -/
def fetchWithRetryRun {Res : Type} (f : Nat → Except JsError Res) (interval : Nat) :
    Nat → Nat → AsyncOutcome Res × List Nat
  | _, 0 => (.pending, [])
  | k, fuel + 1 =>
    match f k with
    | .ok v => (.resolved v, [])
    | .error _ =>
      let rest := fetchWithRetryRun f 5 (k + 1) fuel
      (rest.1, interval :: rest.2)

/-! ## AuthRefresher: `fetchWithAuth` (src/src/index.ts:69-86)

The closure state is the shared `Authorization` string, the single-flight
`promise` slot and (for counting) the number of `fetchWithRetry(fun)` refresh
operations started.  A pending refresh is identified by the count at its
start.  Under run-to-completion scheduling, the synchronous segment of
`update()` up to its first await point (src/src/index.ts:72-75) is one atomic
step on this state. -/

/-- The closure state of one `fetchWithAuth(fun)` instance
(src/src/index.ts:70-71), plus an invocation counter for the token-fetch
refresh operation. -/
structure AuthClosure where
  authorization : String
  promiseSlot : Option Nat
  refreshStarts : Nat
deriving DecidableEq, Repr

/-- State of a fresh `fetchWithAuth` instance: `Authorization = ""`,
no refresh in flight (src/src/index.ts:70-71). -/
def AuthClosure.init : AuthClosure := ⟨"", none, 0⟩

/-- Synchronous prefix of `update()` (src/src/index.ts:72-74): if a refresh
promise is already in flight, return it (the caller joins it); otherwise start
`fetchWithRetry(fun)` — invoking the token-fetch operation — and store the
pending promise in the slot.  Returns the id of the promise this caller now
awaits. -/
def authUpdateEnter (s : AuthClosure) : AuthClosure × Nat :=
  match s.promiseSlot with
  | some p => (s, p)
  | none =>
    (⟨s.authorization, some s.refreshStarts, s.refreshStarts + 1⟩, s.refreshStarts)

/-- Continuation of `update()` after the refresh promise resolves with the new
token (src/src/index.ts:75-76): `Authorization = await promise; promise =
null`.  Under run-to-completion this continuation, registered first on the
promise, runs before any joined caller resumes. -/
def authUpdateComplete (token : String) (s : AuthClosure) : AuthClosure :=
  ⟨token, none, s.refreshStarts⟩

/-- `n` concurrent callers of a `fetchWithAuth`-wrapped function whose first
attempts all returned 401: each caller, resumed in order, executes
`await update()` — the synchronous prefix `authUpdateEnter` — atomically.
Returns the state after all callers entered and the promise id each awaits. -/
def authEnterAll : Nat → AuthClosure → AuthClosure × List Nat
  | 0, s => (s, [])
  | n + 1, s =>
    let (s1, p) := authUpdateEnter s
    let (s2, ps) := authEnterAll n s1
    (s2, p :: ps)

/-- The whole concurrent-401 scenario for `n` callers: first attempts are sent
with the current credential and all return 401; every caller runs
`await update()`; the single refresh resolves with `token` (the token fetch
succeeding on its first attempt); every caller then retries with the current
`Authorization` (src/src/index.ts:82).  Returns the final closure state,
the promise id each caller awaited, and the credential each retry carried. -/
def authConcurrentScenario (n : Nat) (token : String) :
    AuthClosure × List Nat × List String :=
  let (s1, ps) := authEnterAll n AuthClosure.init
  let s2 := authUpdateComplete token s1
  (s2, ps, List.replicate n s2.authorization)

/-- One call through a `fetchWithAuth`-wrapped function, against an oracle
giving the response of the j-th underlying attempt (src/src/index.ts:78-85):
perform the first attempt; if its status is 401 or 403, run `update()` once
and return the second attempt's response unconditionally; otherwise return
the first response.  Records the number of attempts and of `update()` calls. -/
structure AuthCallTrace where
  attempts : Nat
  updateCalls : Nat
  result : Response
deriving DecidableEq, Repr

/-- `[401, 403].includes(res.status)` (src/src/index.ts:80). -/
def isAuthFailure (r : Response) : Bool :=
  r.status == 401 || r.status == 403

/-- The control flow of one wrapped call (src/src/index.ts:78-85). -/
def authCallRun (attempt : Nat → Response) : AuthCallTrace :=
  let res := attempt 0
  if isAuthFailure res then
    let res2 := attempt 1
    ⟨2, 1, res2⟩
  else
    ⟨1, 0, res⟩

/-! ## ProxyDispatcher: `fetchByProxy` (src/src/index.ts:93-99) -/

/-- Options object of `fetchByProxy`; `proxyUrl` is `none` when the caller
omitted the field (possible at runtime despite the TypeScript annotation). -/
structure ProxyInit where
  proxyUrl : Option String
deriving DecidableEq, Repr

/-- An opaque proxy agent handle. -/
structure Agent where
  url : String
deriving DecidableEq, Repr

/-- Modelled from the spec: the proxy-agent constructor `new
HttpsProxyAgent(proxyUrl)` (src/src/index.ts:95) is an external collaborator
— §6 "Proxy-agent constructor: build_agent(proxy_url) -> agent_handle" —
whose code is not under src/.  Per §4.4 and the §7 `PreconditionViolation`
taxonomy, constructing an agent from an absent proxy URL fails with an
exception rather than yielding a usable agent. -/
def buildProxyAgent : Option String → Except JsError Agent
  | none => .error (.errorMsg "proxy url required")
  | some u => .ok ⟨u⟩

/-- `fetchByProxy` (src/src/index.ts:93-99): read `init.proxyUrl`, construct
the agent — a constructor exception inside the async function rejects the
returned promise — then attach the agent and perform the request via
`fetchWithTimeout`. -/
def fetchByProxy (init : ProxyInit) (b : TransportBehavior) :
    Except JsError Response :=
  match buildProxyAgent init.proxyUrl with
  | .error e => .error e
  | .ok _agent => fetchWithTimeoutResult b

/-! ## RefreshCache: `fixedRefresh` (src/src/index.ts:108-125)

Closure state: the cached value `res` (initially `undefined`), the
single-flight `promise` slot, the timestamp of the last successful update
(initially `0`), plus an invocation counter for the wrapped operation.
Timestamps are integers (milliseconds, `Date.now()`). -/

/-- The closure state of one `fixedRefresh(fun, interval)` instance
(src/src/index.ts:109-111), plus a counter of refresh operations started
(each starting `fetchWithRetry(fun)` invokes `fun`; the scenarios below have
`fun` succeed on its first attempt, so this counts invocations of `fun`). -/
structure RefreshClosure where
  res : JSValue
  promiseSlot : Option Nat
  lastUpdateTimestamp : Int
  funStarts : Nat
deriving DecidableEq, Repr

/-- State of a fresh `fixedRefresh` instance: `res` undefined, no refresh in
flight, `lastUpdateTimestamp = 0` (src/src/index.ts:109-111). -/
def RefreshClosure.init : RefreshClosure := ⟨.vUndefined, none, 0, 0⟩

/-- The accessor's staleness test (src/src/index.ts:120):
`Date.now() - lastUpdateTimestamp >= interval * 1000 || !res`. -/
def staleCheck (interval : Nat) (now : Int) (s : RefreshClosure) : Bool :=
  decide (now - s.lastUpdateTimestamp ≥ (interval : Int) * 1000) || !truthy s.res

/-- Synchronous prefix of the cache's `update()` (src/src/index.ts:112-115):
join an in-flight refresh if one exists, else start `fetchWithRetry(fun)` and
store the pending promise.  Returns the promise id this caller awaits. -/
def refreshUpdateEnter (s : RefreshClosure) : RefreshClosure × Nat :=
  match s.promiseSlot with
  | some p => (s, p)
  | none =>
    (⟨s.res, some s.funStarts, s.lastUpdateTimestamp, s.funStarts + 1⟩, s.funStarts)

/-- Continuation of the cache's `update()` once the refresh promise resolves
(src/src/index.ts:115-117): `res = await promise; lastUpdateTimestamp =
Date.now(); promise = null`, where `tc` is `Date.now()` at completion. -/
def refreshUpdateComplete (v : JSValue) (tc : Int) (s : RefreshClosure) :
    RefreshClosure :=
  ⟨v, none, tc, s.funStarts⟩

/-- One sequential accessor call (src/src/index.ts:119-124) at time `now`,
where a triggered refresh succeeds immediately with value `v` and completes at
time `tc` (so `lastUpdateTimestamp` becomes `tc`): if the staleness test
fires, run `update()` to completion; then `return res`.  Yields the new
closure state and the returned value. -/
def refreshAccess (interval : Nat) (now : Int) (v : JSValue) (tc : Int)
    (s : RefreshClosure) : RefreshClosure × JSValue :=
  if staleCheck interval now s then
    let (s1, _p) := refreshUpdateEnter s
    let s2 := refreshUpdateComplete v tc s1
    (s2, s2.res)
  else
    (s, s.res)

/-- `n` concurrent accessor calls, all arriving at time `now`: each caller
executes the synchronous segment up to its await — the staleness test and, if
it fires, the `update()` prefix — atomically, in arrival order.  Returns the
state after all callers entered and, per caller, the promise id it awaits
(`none` when its staleness test did not fire). -/
def refreshEnterAll (interval : Nat) (now : Int) :
    Nat → RefreshClosure → RefreshClosure × List (Option Nat)
  | 0, s => (s, [])
  | n + 1, s =>
    if staleCheck interval now s then
      let (s1, p) := refreshUpdateEnter s
      let (s2, ps) := refreshEnterAll interval now n s1
      (s2, some p :: ps)
    else
      let (s2, ps) := refreshEnterAll interval now n s
      (s2, none :: ps)

/-- The whole concurrent-refresh scenario for `n` callers on a fresh
`fixedRefresh` instance: all `n` callers arrive at time `now`, the single
refresh resolves with `v` at time `tc` (the first caller's continuation
writes `res`, the timestamp, and clears the slot before any joined caller
resumes), and every caller then executes `return res`.  Returns the final
state, the promise id each caller awaited, and the value each call
returned. -/
def refreshConcurrentScenario (interval : Nat) (now : Int) (n : Nat)
    (v : JSValue) (tc : Int) : RefreshClosure × List (Option Nat) × List JSValue :=
  let (s1, ps) := refreshEnterAll interval now n RefreshClosure.init
  let s2 := refreshUpdateComplete v tc s1
  (s2, ps, List.replicate n s2.res)

/-- A concrete operation that fails on its first two invocations and then
succeeds with `42`, used to evaluate the retry loop. -/
def failTwiceOp : Nat → Except JsError Nat :=
  fun k => if k < 2 then .error (.errorMsg "fail") else .ok 42

/-! ## Helper lemmas -/

/-- A caller entering `update()` while a refresh promise is already stored
joins it and leaves the closure state unchanged; any number of such callers
all receive the same promise id. -/
theorem authEnterAll_joined (n : Nat) (s : AuthClosure) (p : Nat)
    (h : s.promiseSlot = some p) : authEnterAll n s = (s, List.replicate n p) := by
  induction n with
  | zero => simp [authEnterAll]
  | succ m ih => simp [authEnterAll, authUpdateEnter, h, ih, List.replicate_succ]

/-- The staleness test always fires while the cached value is still the
undefined initial value, because `!res` holds for `undefined`. -/
theorem staleCheck_undefined (interval : Nat) (now : Int) (p : Option Nat)
    (ts : Int) (c : Nat) :
    staleCheck interval now ⟨.vUndefined, p, ts, c⟩ = true := by
  simp [staleCheck, truthy]

/-- A cache caller entering `update()` while a refresh promise is already
stored joins it and leaves the state unchanged. -/
theorem refreshEnterAll_joined (interval : Nat) (now : Int) (n : Nat)
    (s : RefreshClosure) (p : Nat) (h : s.promiseSlot = some p)
    (hst : staleCheck interval now s = true) :
    refreshEnterAll interval now n s = (s, List.replicate n (some p)) := by
  induction n with
  | zero => simp [refreshEnterAll]
  | succ m ih =>
    simp [refreshEnterAll, hst, refreshUpdateEnter, h, ih, List.replicate_succ]

/-! ## Claim theorems -/

/-- C1: the claim says every retry delay is at least the configured interval.
Evaluating the code at interval 10 with an operation failing twice then
succeeding: the call resolves to the success value after exactly two delays,
but the delays are 10 s then 5 s — the recursive call at src/src/index.ts:47
omits the interval argument, reverting to the default 5 — so the second delay
is below the configured interval, contrary to the claim. -/
theorem fetchWithRetry_interval_dropped :
    fetchWithRetryRun failTwiceOp 10 0 5 = (.resolved 42, [10, 5]) ∧
    ¬ ∀ d ∈ (fetchWithRetryRun failTwiceOp 10 0 5).2, 10 ≤ d := by
  constructor
  · rfl
  · decide

/-- C2: N concurrent calls through a `fetchWithAuth` instance that all got a
401 on their first attempt start exactly one token-fetch refresh, all await
that same pending refresh, and all retry with the refreshed credential. -/
theorem fetchWithAuth_single_flight (n : Nat) (token : String) (hn : 1 ≤ n) :
    (authConcurrentScenario n token).1.refreshStarts = 1 ∧
    (authConcurrentScenario n token).2.1 = List.replicate n 0 ∧
    (authConcurrentScenario n token).2.2 = List.replicate n token := by
  cases n with
  | zero => exact absurd hn (by simp)
  | succ m =>
    have hj := authEnterAll_joined m ⟨"", some 0, 1⟩ 0 rfl
    have hall : authEnterAll (m + 1) AuthClosure.init =
        (⟨"", some 0, 1⟩, List.replicate (m + 1) 0) := by
      simp [authEnterAll, authUpdateEnter, AuthClosure.init, hj, List.replicate_succ]
    simp [authConcurrentScenario, hall, authUpdateComplete]

/-- C2 witness: the single-flight theorem at three concurrent callers. -/
theorem fetchWithAuth_single_flight_witness :
    1 ≤ 3 ∧
    ((authConcurrentScenario 3 "tok").1.refreshStarts = 1 ∧
      (authConcurrentScenario 3 "tok").2.1 = List.replicate 3 0 ∧
      (authConcurrentScenario 3 "tok").2.2 = List.replicate 3 "tok") :=
  ⟨by decide, fetchWithAuth_single_flight 3 "tok" (by decide)⟩

/-- C4: one call through a `fetchWithAuth`-wrapped function performs at most
two underlying attempts, and when the retried attempt also fails
authorization its response is returned to the caller with only the one
refresh having been started. -/
theorem fetchWithAuth_two_attempts (attempt : Nat → Response) :
    (authCallRun attempt).attempts ≤ 2 ∧
    (isAuthFailure (attempt 0) = true → isAuthFailure (attempt 1) = true →
      (authCallRun attempt).result = attempt 1 ∧
      (authCallRun attempt).updateCalls = 1) := by
  by_cases h : isAuthFailure (attempt 0) = true
  · exact ⟨by simp [authCallRun, h], fun _ _ => by simp [authCallRun, h]⟩
  · exact ⟨by simp [authCallRun, h], fun h0 _ => absurd h0 h⟩

/-- C4 witness: a transport answering 401 to both attempts. -/
theorem fetchWithAuth_two_attempts_witness :
    (authCallRun fun _ => Response.mk 401 0).attempts ≤ 2 ∧
    ((authCallRun fun _ => Response.mk 401 0).result = Response.mk 401 0 ∧
      (authCallRun fun _ => Response.mk 401 0).updateCalls = 1) :=
  ⟨(fetchWithAuth_two_attempts fun _ => Response.mk 401 0).1,
    (fetchWithAuth_two_attempts fun _ => Response.mk 401 0).2 (by decide) (by decide)⟩

/-- C5: when the transport does not settle before the deadline the call
rejects with the distinguishable `Error("timeout")`, not the raw
`AbortError`; and every transport failure other than the internal abort is
propagated unchanged. -/
theorem fetchWithTimeout_timeout_error :
    (fetchWithTimeoutResult .hangs = .error (.errorMsg "timeout") ∧
      JsError.errorMsg "timeout" ≠ JsError.abortError) ∧
    ∀ e : JsError, e ≠ .abortError →
      fetchWithTimeoutResult (.settles (.error e)) = .error e := by
  refine ⟨⟨rfl, by decide⟩, fun e he => ?_⟩
  cases e with
  | abortError => exact absurd rfl he
  | errorMsg m => rfl

/-- C5 witness: a connection failure is propagated unchanged. -/
theorem fetchWithTimeout_timeout_error_witness :
    JsError.errorMsg "ECONNREFUSED" ≠ JsError.abortError ∧
    fetchWithTimeoutResult (.settles (.error (.errorMsg "ECONNREFUSED"))) =
      .error (.errorMsg "ECONNREFUSED") :=
  ⟨by decide, fetchWithTimeout_timeout_error.2 (.errorMsg "ECONNREFUSED") (by decide)⟩

/-- C7: the claim says the internal cancellation timer is cancelled on
settlement.  At a transport response that settles in time, both variants
return the response unchanged; src/src/index.ts (`clearTimeout`) leaves no
pending timer, but src/index.js:28 calls `clearImmediate` on the `setTimeout`
handle — the cancel operation of the immediate queue, not the timeout queue —
so its pending abort timer survives settlement, contrary to the claim. -/
theorem fetchWithTimeout_timer_divergence :
    (fetchWithTimeoutTS (.settles (.ok ⟨200, 7⟩)) TimerSystem.empty).2 = .ok ⟨200, 7⟩ ∧
    (fetchWithTimeoutTS (.settles (.ok ⟨200, 7⟩)) TimerSystem.empty).1.pendingTimeouts = [] ∧
    (fetchWithTimeoutJS (.settles (.ok ⟨200, 7⟩)) TimerSystem.empty).2 = .ok ⟨200, 7⟩ ∧
    (fetchWithTimeoutJS (.settles (.ok ⟨200, 7⟩)) TimerSystem.empty).1.pendingTimeouts = [0] := by
  exact ⟨rfl, by decide, rfl, by decide⟩

/-- C8: a `fetchByProxy` call whose options carry no `proxyUrl` rejects with
the precondition failure, whatever the transport would have done — the
request is not silently performed without a proxy. -/
theorem fetchByProxy_missing_proxyUrl (init : ProxyInit) (b : TransportBehavior)
    (h : init.proxyUrl = none) :
    fetchByProxy init b = .error (.errorMsg "proxy url required") := by
  simp [fetchByProxy, buildProxyAgent, h]

/-- C8 witness: options without `proxyUrl`, over a transport that would have
answered 200. -/
theorem fetchByProxy_missing_proxyUrl_witness :
    (ProxyInit.mk none).proxyUrl = none ∧
    fetchByProxy (ProxyInit.mk none) (.settles (.ok ⟨200, 0⟩)) =
      .error (.errorMsg "proxy url required") :=
  ⟨rfl, fetchByProxy_missing_proxyUrl (ProxyInit.mk none) (.settles (.ok ⟨200, 0⟩)) rfl⟩

/-- C9: the retry loop never rejects — within any observation bound the call
is either resolved with a success value or still pending — and when the
operation fails on every invocation the call never settles. -/
theorem fetchWithRetry_never_rejects {Res : Type} (f : Nat → Except JsError Res)
    (interval k fuel : Nat) :
    (∀ e, (fetchWithRetryRun f interval k fuel).1 ≠ .rejected e) ∧
    ((∀ j, ∃ e, f j = .error e) →
      (fetchWithRetryRun f interval k fuel).1 = .pending) := by
  induction fuel generalizing interval k with
  | zero =>
    exact ⟨fun e => by simp [fetchWithRetryRun], fun _ => by simp [fetchWithRetryRun]⟩
  | succ m ih =>
    cases h : f k with
    | ok v =>
      refine ⟨fun e => by simp [fetchWithRetryRun, h], fun hall => ?_⟩
      obtain ⟨e, he⟩ := hall k
      rw [h] at he
      cases he
    | error e0 =>
      refine ⟨fun e => ?_, fun hall => ?_⟩
      · simpa [fetchWithRetryRun, h] using (ih 5 (k + 1)).1 e
      · simpa [fetchWithRetryRun, h] using (ih 5 (k + 1)).2 hall

/-- C9 witness: an always-failing operation observed for three invocations is
still pending and has rejected nothing. -/
theorem fetchWithRetry_never_rejects_witness :
    (fetchWithRetryRun (fun _ => (.error (.errorMsg "boom") : Except JsError Nat))
        5 0 3).1 ≠ .rejected (.errorMsg "boom") ∧
    (fetchWithRetryRun (fun _ => (.error (.errorMsg "boom") : Except JsError Nat))
        5 0 3).1 = .pending :=
  ⟨(fetchWithRetry_never_rejects (fun _ => .error (.errorMsg "boom")) 5 0 3).1 _,
    (fetchWithRetry_never_rejects (fun _ => .error (.errorMsg "boom")) 5 0 3).2
      fun _ => ⟨.errorMsg "boom", rfl⟩⟩

/-- C10: a falsy `timeout` option — in particular `0` — selects the same
deadline as an absent option, namely the 5000 ms default, because
src/src/index.ts:15 reads it with `init?.timeout || 5000`. -/
theorem fetchWithTimeout_falsy_timeout (t : JSValue) (ht : truthy t = false) :
    effectiveDeadline (some ⟨t⟩) = .vNum 5000 ∧
    effectiveDeadline (some ⟨t⟩) = effectiveDeadline none := by
  have h1 : effectiveDeadline (some ⟨t⟩) = .vNum 5000 := by
    simp [effectiveDeadline, initTimeoutField, jsOr, ht]
  have h2 : effectiveDeadline none = .vNum 5000 := by
    simp [effectiveDeadline, initTimeoutField, jsOr, truthy]
  exact ⟨h1, h1.trans h2.symm⟩

/-- C10 witness: the falsy-timeout theorem at `timeout: 0`. -/
theorem fetchWithTimeout_falsy_timeout_witness :
    truthy (.vNum 0) = false ∧
    (effectiveDeadline (some ⟨.vNum 0⟩) = .vNum 5000 ∧
      effectiveDeadline (some ⟨.vNum 0⟩) = effectiveDeadline none) :=
  ⟨by decide, fetchWithTimeout_falsy_timeout (.vNum 0) (by decide)⟩

/-- C3 counterexample: the claim quantifies over every data-producing
operation, but for an operation producing the falsy value `0` the staleness
test's `!res` (src/src/index.ts:120) fires on every call: a second accessor
call 1 s after a successful update, well inside a 60 s window, invokes the
operation again (two invocations, not the claimed one). -/
theorem fixedRefresh_falsy_counterexample :
    (refreshAccess 60 0 (.vNum 0) 0 RefreshClosure.init).1.funStarts = 1 ∧
    ¬ (refreshAccess 60 1000 (.vNum 0) 1000
        (refreshAccess 60 0 (.vNum 0) 0 RefreshClosure.init).1).1.funStarts = 1 ∧
    (refreshAccess 60 1000 (.vNum 0) 1000
        (refreshAccess 60 0 (.vNum 0) 0 RefreshClosure.init).1).1.funStarts = 2 := by
  decide

/-- C3 (amended): for an operation producing truthy values, a first accessor
call triggers one refresh; a second call within the interval window of that
successful update returns the cached value without invoking the operation;
a call made once the interval has elapsed invokes it a second time. -/
theorem fixedRefresh_cache_window (interval : Nat) (v w w2 : JSValue)
    (ta t0 t1 t2 tc2 : Int) (hv : truthy v = true)
    (h1 : t1 - t0 < (interval : Int) * 1000)
    (h2 : t2 - t0 ≥ (interval : Int) * 1000) :
    (refreshAccess interval ta v t0 RefreshClosure.init).1.funStarts = 1 ∧
    refreshAccess interval t1 w t1
        (refreshAccess interval ta v t0 RefreshClosure.init).1 =
      ((refreshAccess interval ta v t0 RefreshClosure.init).1, v) ∧
    (refreshAccess interval t2 w2 tc2
        (refreshAccess interval ta v t0 RefreshClosure.init).1).1.funStarts = 2 := by
  have hs1 : (refreshAccess interval ta v t0 RefreshClosure.init).1 =
      ⟨v, none, t0, 1⟩ := by
    simp [refreshAccess, staleCheck_undefined, refreshUpdateEnter,
      refreshUpdateComplete, RefreshClosure.init]
  have hst1 : staleCheck interval t1 (⟨v, none, t0, 1⟩ : RefreshClosure) = false := by
    simp [staleCheck, hv, not_le.mpr h1]
  have hst2 : staleCheck interval t2 (⟨v, none, t0, 1⟩ : RefreshClosure) = true := by
    simp [staleCheck, h2]
  refine ⟨by rw [hs1], ?_, ?_⟩
  · rw [hs1]
    simp [refreshAccess, hst1]
  · rw [hs1]
    simp [refreshAccess, hst2, refreshUpdateEnter, refreshUpdateComplete]

/-- C3 witness: interval 60 s, a truthy cached string, second call 1 s after
the update, third call at 60 s. -/
theorem fixedRefresh_cache_window_witness :
    truthy (.vStr "data") = true ∧
    (1000 : Int) - 0 < (60 : Int) * 1000 ∧
    (60000 : Int) - 0 ≥ (60 : Int) * 1000 ∧
    ((refreshAccess 60 0 (.vStr "data") 0 RefreshClosure.init).1.funStarts = 1 ∧
      refreshAccess 60 1000 (.vStr "x") 1000
          (refreshAccess 60 0 (.vStr "data") 0 RefreshClosure.init).1 =
        ((refreshAccess 60 0 (.vStr "data") 0 RefreshClosure.init).1, .vStr "data") ∧
      (refreshAccess 60 60000 (.vStr "x") 60001
          (refreshAccess 60 0 (.vStr "data") 0 RefreshClosure.init).1).1.funStarts = 2) :=
  ⟨by decide, by decide, by decide,
    fixedRefresh_cache_window 60 (.vStr "data") (.vStr "x") (.vStr "x")
      0 0 1000 60000 60001 (by decide) (by decide) (by decide)⟩

/-- C6: N concurrent accessor calls on a `fixedRefresh` instance that all
trigger a refresh start the underlying operation exactly once, all await that
same pending refresh, and all N calls return the same resulting value. -/
theorem fixedRefresh_concurrent_single_flight (interval : Nat) (now : Int)
    (n : Nat) (v : JSValue) (tc : Int) (hn : 1 ≤ n) :
    (refreshConcurrentScenario interval now n v tc).1.funStarts = 1 ∧
    (refreshConcurrentScenario interval now n v tc).2.1 =
      List.replicate n (some 0) ∧
    (refreshConcurrentScenario interval now n v tc).2.2 = List.replicate n v := by
  cases n with
  | zero => exact absurd hn (by simp)
  | succ m =>
    have hj := refreshEnterAll_joined interval now m
      ⟨.vUndefined, some 0, 0, 1⟩ 0 rfl (staleCheck_undefined interval now _ _ _)
    have hall : refreshEnterAll interval now (m + 1) RefreshClosure.init =
        (⟨.vUndefined, some 0, 0, 1⟩, List.replicate (m + 1) (some 0)) := by
      simp [refreshEnterAll, staleCheck_undefined, refreshUpdateEnter,
        RefreshClosure.init, hj, List.replicate_succ]
    simp [refreshConcurrentScenario, hall, refreshUpdateComplete]

/-- C6 witness: the concurrent single-flight theorem at three callers. -/
theorem fixedRefresh_concurrent_single_flight_witness :
    1 ≤ 3 ∧
    ((refreshConcurrentScenario 60 0 3 (.vStr "d") 5).1.funStarts = 1 ∧
      (refreshConcurrentScenario 60 0 3 (.vStr "d") 5).2.1 =
        List.replicate 3 (some 0) ∧
      (refreshConcurrentScenario 60 0 3 (.vStr "d") 5).2.2 =
        List.replicate 3 (.vStr "d")) :=
  ⟨by decide, fixedRefresh_concurrent_single_flight 60 0 3 (.vStr "d") 5 (by decide)⟩

end StrongFetch
